import Mathlib

/-!
Shallow embedding of `ambiclimate/__init__.py`, a small asynchronous HTTP
client for the Ambiclimate cloud API.

The network is modelled by an oracle `Nat → NetOutcome` giving the outcome
of each successive HTTP attempt (attempt 0 is the initial call, attempt
`k + 1` the `k`-th retry).  Every function that performs network traffic
additionally returns the list of attempts it issued (command, parameters and
HTTP method of each), so that claims about the number of attempts and the
method used can be stated.  Python dictionaries of JSON values are
association lists with first-occurrence lookup and in-place update;
Python `None` and JSON `null` are both `Json.null`.  Runtime faults
(`AttributeError` from `None.get`, `TypeError` from iterating `None`) are
modelled with `Except PyError`.
-/

set_option autoImplicit false

/-- JSON values, as produced by `resp.json()` in the Python client. -/
inductive Json where
  | null
  | bool (b : Bool)
  | num (n : Int)
  | str (s : String)
  | arr (elems : List Json)
  | obj (fields : List (String × Json))

/-- A Python dictionary with string keys and JSON values (such as the
`params` dictionaries of the client). -/
abbrev Params := List (String × Json)

/-- Raw association-list lookup: the value stored under `key`, if the key is
present at all. -/
def lookupField : Params → String → Option Json
  | [], _ => none
  | (k, v) :: rest, key => if k = key then some v else lookupField rest key

/-- Python `d.get(key, default)`: the stored value when the key is present
(even when that value is `null`), the default otherwise. -/
def dictGetD (d : Params) (key : String) (default : Json) : Json :=
  match lookupField d key with
  | some v => v
  | none => default

/-- Python `d.get(key)`: as `dictGetD` with default `None`; a stored JSON
`null` and an absent key are indistinguishable, both give `Json.null`. -/
def dictGet (d : Params) (key : String) : Json :=
  dictGetD d key Json.null

/-- Python `d[key] = v`: overwrite the value at `key` when the key is
present, append the binding otherwise. -/
def dictSet : Params → String → Json → Params
  | [], key, v => [(key, v)]
  | (k, w) :: rest, key, v =>
      if k = key then (key, v) :: rest else (k, w) :: dictSet rest key v

/-- Python `value == some_string` where the string is a `str` literal:
true exactly when `value` is that string (any non-string compares unequal). -/
def pyEqStr (v : Json) (s : String) : Bool :=
  match v with
  | .str t => t = s
  | _ => false

/-- Python `value is None` on a JSON value. -/
def Json.isNull : Json → Bool
  | .null => true
  | _ => false

/-- Python truthiness `bool(v)` of a JSON value. -/
def pyTruthy : Json → Bool
  | .null => false
  | .bool b => b
  | .num n => n != 0
  | .str s => s ≠ ""
  | .arr elems => ¬ elems.isEmpty
  | .obj fields => ¬ fields.isEmpty

/-- Outcome of one HTTP attempt: `asyncio.TimeoutError`, an
`aiohttp.ClientError`, or a response whose parsed JSON body is the given
object. -/
inductive NetOutcome where
  | timeout
  | clientError
  | success (body : Params)

/-- Record of one issued HTTP attempt: the command, the query parameters
sent, and whether the GET method was used (`false` means POST). -/
structure AttemptRec where
  command : String
  params : Params
  usedGet : Bool

/-- Value returned by `Ambiclimate.request`: Python `None`, a Python
boolean, or the parsed JSON body. -/
inductive ReqResult where
  | null
  | boolean (b : Bool)
  | body (fields : Params)

/-- Whether a request result is one of the Python booleans. -/
def ReqResult.isBoolean : ReqResult → Bool
  | .boolean _ => true
  | _ => false

/-- Recursion core of `Ambiclimate.request`, structural on the remaining
retry budget `fuel` (`fuel = retry.toNat`; the guard `retry < 1` of the
source is exactly `fuel = 0` for an integer `retry`).  `k` is the index of
the current attempt in the oracle.  On `asyncio.TimeoutError` with budget
left, the source recurses as `self.request(command, params, retry - 1)`,
omitting `get`, so the retry always uses GET.  On `aiohttp.ClientError` it
returns `None` at once.  On success it reads `result.get('status')`: when
that is not `None` it returns `status == 'ok'`, otherwise the whole body. -/
def requestGo (oracle : Nat → NetOutcome) (command : String) (params : Params) :
    Nat → Nat → Bool → ReqResult × List AttemptRec
  | fuel, k, get =>
    match oracle k, fuel with
    | .timeout, 0 => (.null, [⟨command, params, get⟩])
    | .timeout, m + 1 =>
        let r := requestGo oracle command params m (k + 1) true
        (r.1, ⟨command, params, get⟩ :: r.2)
    | .clientError, _ => (.null, [⟨command, params, get⟩])
    | .success body, _ =>
        let status := dictGet body "status"
        ((if status.isNull then ReqResult.body body
          else ReqResult.boolean (pyEqStr status "ok")),
         [⟨command, params, get⟩])

/-- `Ambiclimate.request(command, params, retry=3, get=True)`: result value
together with the list of attempts issued.  `retry` is a Python integer;
`retry.toNat` is its value clamped at zero, matching the `retry < 1` exit
of the source. -/
def Ambiclimate.request (oracle : Nat → NetOutcome) (command : String)
    (params : Params) (retry : Int) (get : Bool) : ReqResult × List AttemptRec :=
  requestGo oracle command params retry.toNat 0 get

/-- Runtime faults of the Python code: `AttributeError` (calling `.get` on
`None` or on a boolean) and `TypeError` (iterating a non-list). -/
inductive PyError where
  | attributeError
  | typeError

/-- Value of `self._devices_info` right after `Ambiclimate.__init__`:
the empty Python list. -/
def initial_devices_info : Json := Json.arr []

/-- `Ambiclimate.find_devices()`: issue `request('devices', {})` (with the
default `retry=3`, `get=True`), store `res.get('data', [])` in
`self._devices_info` and return its truthiness.  When the request returned
`None` (or a boolean), `res.get` raises `AttributeError`.  The result pairs
the returned boolean with the new `self._devices_info`. -/
def Ambiclimate.find_devices (oracle : Nat → NetOutcome) :
    Except PyError (Bool × Json) :=
  match (Ambiclimate.request oracle "devices" [] 3 true).1 with
  | .body res =>
      let info := dictGetD res "data" (Json.arr [])
      .ok (pyTruthy info, info)
  | _ => .error .attributeError

/-- A device handle, as built by `Ambiclimate.get_devices`.  The Python
object also stores a reference to the owning `Ambiclimate` client; in the
embedding the network oracle is passed to each operation instead. -/
structure AmbiclimateDevice where
  room_name : Json
  location_name : Json
  device_id : Json

/-- One step of the loop of `Ambiclimate.get_devices`: each element of the
stored list must be a dictionary (`device.get(...)` raises
`AttributeError` otherwise) and yields a handle built from its
`room_name`, `location_name` and `device_id` fields. -/
def devicesFrom : List Json → Except PyError (List AmbiclimateDevice)
  | [] => .ok []
  | .obj fields :: rest =>
      (devicesFrom rest).map fun ds =>
        ⟨dictGet fields "room_name", dictGet fields "location_name",
          dictGet fields "device_id"⟩ :: ds
  | _ :: _ => .error .attributeError

/-- `Ambiclimate.get_devices()`: build the handle list from the cached
`self._devices_info`, no network traffic.  Iterating a value that is not a
list (such as `None`) faults. -/
def Ambiclimate.get_devices (info : Json) : Except PyError (List AmbiclimateDevice) :=
  match info with
  | .arr elems => devicesFrom elems
  | _ => .error .typeError

/-- `AmbiclimateDevice.request(command, params, retry=3)`: write
`room_name` and `location_name` into the caller's `params` dictionary, then
delegate to the client's `request` with `get` left at its default `True`.
The third component is the `params` dictionary after the in-place
mutation. -/
def AmbiclimateDevice.request (dev : AmbiclimateDevice) (oracle : Nat → NetOutcome)
    (command : String) (params : Params) (retry : Int) :
    ReqResult × List AttemptRec × Params :=
  let params1 := dictSet params "room_name" dev.room_name
  let params2 := dictSet params1 "location_name" dev.location_name
  let r := Ambiclimate.request oracle command params2 retry true
  (r.1, r.2, params2)

/-- The closed set of comfort-feedback values accepted by
`set_comfort_feedback`. -/
def valid_comfort_feedback : List String :=
  ["too_hot", "too_warm", "bit_warm", "comfortable",
   "bit_cold", "too_cold", "freezing"]

/-- Python `value in valid_comfort_feedback`: list membership by `==`
against a list of strings. -/
def pyInStrList (v : Json) (ss : List String) : Bool :=
  ss.any (pyEqStr v)

/-- `AmbiclimateDevice.set_comfort_feedback(value)`: reject a value outside
`valid_comfort_feedback` by logging and returning `None` with no network
call; otherwise send `request('user/feedback', {'value': value})`. -/
def AmbiclimateDevice.set_comfort_feedback (dev : AmbiclimateDevice)
    (oracle : Nat → NetOutcome) (value : Json) : ReqResult × List AttemptRec :=
  if ¬ pyInStrList value valid_comfort_feedback then (.null, [])
  else
    let r := dev.request oracle "user/feedback" [("value", value)] 3
    (r.1, r.2.1)

/-- `AmbiclimateDevice.get_sensor_temperature()`: issue
`request('device/sensor/temperature', {})` and return `res.get('value')`;
when the request returned `None` (or a boolean) the `.get` raises
`AttributeError`. -/
def AmbiclimateDevice.get_sensor_temperature (dev : AmbiclimateDevice)
    (oracle : Nat → NetOutcome) : Except PyError Json :=
  match (dev.request oracle "device/sensor/temperature" [] 3).1 with
  | .body res => .ok (dictGet res "value")
  | _ => .error .attributeError

/-- `AmbiclimateDevice.get_sensor_humidity()`: as the temperature getter,
for `device/sensor/humidity`. -/
def AmbiclimateDevice.get_sensor_humidity (dev : AmbiclimateDevice)
    (oracle : Nat → NetOutcome) : Except PyError Json :=
  match (dev.request oracle "device/sensor/humidity" [] 3).1 with
  | .body res => .ok (dictGet res "value")
  | _ => .error .attributeError

/-- `AmbiclimateDevice.get_sensor_mode()`: issue `request('device/mode', {})`
and return `res.get('mode')`; a `None` (or boolean) result faults. -/
def AmbiclimateDevice.get_sensor_mode (dev : AmbiclimateDevice)
    (oracle : Nat → NetOutcome) : Except PyError Json :=
  match (dev.request oracle "device/mode" [] 3).1 with
  | .body res => .ok (dictGet res "mode")
  | _ => .error .attributeError

/-- A sample device handle for concrete instantiations. -/
def sampleDevice : AmbiclimateDevice :=
  ⟨Json.str "Bedroom", Json.str "Home", Json.str "abc"⟩

/-- An oracle whose every attempt fails with a transport error. -/
def errOracle : Nat → NetOutcome := fun _ => NetOutcome.clientError

/-- An oracle whose every attempt succeeds with a small sensor-style body. -/
def okOracle : Nat → NetOutcome :=
  fun _ => NetOutcome.success [("value", Json.num 21), ("mode", Json.str "Comfort")]

/-! ### Helper lemmas -/

theorem lookupField_dictSet_same (d : Params) (key : String) (v : Json) :
    lookupField (dictSet d key v) key = some v := by
  induction d with
  | nil => simp [dictSet, lookupField]
  | cons hd tl ih =>
      obtain ⟨k, w⟩ := hd
      by_cases h : k = key <;> simp [dictSet, lookupField, h, ih]

theorem lookupField_dictSet_other (d : Params) (key : String) (v : Json)
    (key' : String) (h : key' ≠ key) :
    lookupField (dictSet d key v) key' = lookupField d key' := by
  induction d with
  | nil => simp [dictSet, lookupField, Ne.symm h]
  | cons hd tl ih =>
      obtain ⟨k, w⟩ := hd
      by_cases hk : k = key
      · subst hk
        simp [dictSet, lookupField, Ne.symm h]
      · simp [dictSet, lookupField, hk, ih]

theorem requestGo_all_timeout (oracle : Nat → NetOutcome) (c : String) (p : Params)
    (hT : ∀ k, oracle k = NetOutcome.timeout) :
    ∀ fuel k g, (requestGo oracle c p fuel k g).1 = ReqResult.null ∧
      (requestGo oracle c p fuel k g).2.length = fuel + 1 := by
  intro fuel
  induction fuel with
  | zero => intro k g; simp [requestGo, hT k]
  | succ m ih =>
      intro k g
      obtain ⟨ih1, ih2⟩ := ih (k + 1) true
      simp [requestGo, hT k, ih1, ih2]

theorem requestGo_mem_get (oracle : Nat → NetOutcome) (c : String) (p : Params) :
    ∀ fuel k, ∀ a ∈ (requestGo oracle c p fuel k true).2, a = ⟨c, p, true⟩ := by
  intro fuel
  induction fuel with
  | zero =>
      intro k a ha
      cases h : oracle k <;> simp [requestGo, h] at ha <;> exact ha
  | succ m ih =>
      intro k a ha
      cases h : oracle k <;> simp [requestGo, h] at ha
      · rcases ha with ha | ha
        · exact ha
        · exact ih (k + 1) a ha
      · exact ha
      · exact ha

theorem requestGo_trace_get (oracle : Nat → NetOutcome) (c : String) (p : Params)
    (fuel k : Nat) :
    (requestGo oracle c p fuel k true).2 =
      List.replicate (requestGo oracle c p fuel k true).2.length ⟨c, p, true⟩ :=
  List.eq_replicate_of_mem (requestGo_mem_get oracle c p fuel k)

theorem requestGo_length_pos (oracle : Nat → NetOutcome) (c : String) (p : Params)
    (fuel k : Nat) (g : Bool) : 1 ≤ (requestGo oracle c p fuel k g).2.length := by
  cases h : oracle k <;> cases fuel <;> simp [requestGo, h]

/-! ### The claims -/

/-- C1: for every command and params, if every attempt times out, then the
call performs exactly `retry + 1` attempts (one initial attempt plus
`retry` retries, the non-negative retry budget decreasing by one per
retry) and returns the null result. -/
theorem claim_C1 (oracle : Nat → NetOutcome) (c : String) (p : Params)
    (retry : Int) (g : Bool)
    (hT : ∀ k, oracle k = NetOutcome.timeout) (hr : 0 ≤ retry) :
    (Ambiclimate.request oracle c p retry g).1 = ReqResult.null ∧
    ((Ambiclimate.request oracle c p retry g).2.length : Int) = retry + 1 := by
  obtain ⟨h1, h2⟩ := requestGo_all_timeout oracle c p hT retry.toNat 0 g
  refine ⟨h1, ?_⟩
  rw [Ambiclimate.request, h2]
  omega

theorem claim_C1_witness :
    (Ambiclimate.request (fun _ => NetOutcome.timeout) "devices" [] 3 true).1
        = ReqResult.null ∧
    ((Ambiclimate.request (fun _ => NetOutcome.timeout) "devices" [] 3 true).2.length : Int)
        = 3 + 1 :=
  claim_C1 (fun _ => NetOutcome.timeout) "devices" [] 3 true (fun _ => rfl) (by decide)

/-- C3: if the first attempt fails with a transport error
(`aiohttp.ClientError`), the call performs exactly one attempt, no retry,
and returns the null result. -/
theorem claim_C3 (oracle : Nat → NetOutcome) (c : String) (p : Params)
    (retry : Int) (g : Bool) (h : oracle 0 = NetOutcome.clientError) :
    Ambiclimate.request oracle c p retry g = (ReqResult.null, [⟨c, p, g⟩]) := by
  cases hf : retry.toNat <;> simp [Ambiclimate.request, requestGo, h, hf]

theorem claim_C3_witness :
    Ambiclimate.request (fun _ => NetOutcome.clientError) "devices" [] 3 true
      = (ReqResult.null, [⟨"devices", [], true⟩]) :=
  claim_C3 (fun _ => NetOutcome.clientError) "devices" [] 3 true rfl

/-- C9: when a POST request (`get=False`) times out with retries remaining,
the first attempt is issued with POST but every retry attempt is issued
with GET, because the recursive call omits the `get` flag and it defaults
to `True`; the original method is not preserved across retries. -/
theorem claim_C9 (oracle : Nat → NetOutcome) (c : String) (p : Params)
    (retry : Int) (h0 : oracle 0 = NetOutcome.timeout) (hr : 1 ≤ retry) :
    (Ambiclimate.request oracle c p retry false).2.head? = some ⟨c, p, false⟩ ∧
    (Ambiclimate.request oracle c p retry false).2.tail =
      List.replicate (Ambiclimate.request oracle c p retry false).2.tail.length
        ⟨c, p, true⟩ ∧
    2 ≤ (Ambiclimate.request oracle c p retry false).2.length := by
  obtain ⟨m, hm⟩ : ∃ m, retry.toNat = m + 1 := ⟨retry.toNat - 1, by omega⟩
  have hlen := requestGo_length_pos oracle c p m 1 true
  have htr := requestGo_trace_get oracle c p m 1
  simp [Ambiclimate.request, requestGo, hm, h0]
  exact ⟨htr, by omega⟩

theorem claim_C9_witness :
    (Ambiclimate.request (fun _ => NetOutcome.timeout) "device/power/off" [] 3 false).2.head?
        = some ⟨"device/power/off", [], false⟩ ∧
    (Ambiclimate.request (fun _ => NetOutcome.timeout) "device/power/off" [] 3 false).2.tail =
      List.replicate
        (Ambiclimate.request (fun _ => NetOutcome.timeout) "device/power/off" [] 3 false).2.tail.length
        ⟨"device/power/off", [], true⟩ ∧
    2 ≤ (Ambiclimate.request (fun _ => NetOutcome.timeout) "device/power/off" [] 3 false).2.length :=
  claim_C9 (fun _ => NetOutcome.timeout) "device/power/off" [] 3 rfl (by decide)

/-- C6: every attempt of a device-handle request carries parameters that
contain the handle's `room_name` and `location_name`, and is issued with
the GET method (the whole attempt trace consists of GET attempts with
those parameters). -/
theorem claim_C6 (dev : AmbiclimateDevice) (oracle : Nat → NetOutcome)
    (c : String) (p : Params) (retry : Int) :
    (dev.request oracle c p retry).2.1 =
      List.replicate (dev.request oracle c p retry).2.1.length
        ⟨c, dictSet (dictSet p "room_name" dev.room_name) "location_name" dev.location_name,
          true⟩ ∧
    lookupField
        (dictSet (dictSet p "room_name" dev.room_name) "location_name" dev.location_name)
        "room_name" = some dev.room_name ∧
    lookupField
        (dictSet (dictSet p "room_name" dev.room_name) "location_name" dev.location_name)
        "location_name" = some dev.location_name := by
  refine ⟨?_, ?_, ?_⟩
  · simpa [AmbiclimateDevice.request, Ambiclimate.request] using
      requestGo_trace_get oracle c
        (dictSet (dictSet p "room_name" dev.room_name) "location_name" dev.location_name)
        retry.toNat 0
  · rw [lookupField_dictSet_other _ _ _ _ (by decide : "room_name" ≠ "location_name")]
    exact lookupField_dictSet_same _ _ _
  · exact lookupField_dictSet_same _ _ _

/-- C10: a device-handle request mutates the caller's `params` dictionary:
afterwards it maps `room_name` and `location_name` to the handle's
identifiers (overwriting whatever was stored there), and every other key is
unchanged. -/
theorem claim_C10 (dev : AmbiclimateDevice) (oracle : Nat → NetOutcome)
    (c : String) (p : Params) (retry : Int) (key : String)
    (h1 : key ≠ "room_name") (h2 : key ≠ "location_name") :
    lookupField (dev.request oracle c p retry).2.2 "room_name" = some dev.room_name ∧
    lookupField (dev.request oracle c p retry).2.2 "location_name" = some dev.location_name ∧
    lookupField (dev.request oracle c p retry).2.2 key = lookupField p key := by
  refine ⟨?_, ?_, ?_⟩
  · show lookupField
        (dictSet (dictSet p "room_name" dev.room_name) "location_name" dev.location_name)
        "room_name" = some dev.room_name
    rw [lookupField_dictSet_other _ _ _ _ (by decide : "room_name" ≠ "location_name")]
    exact lookupField_dictSet_same _ _ _
  · exact lookupField_dictSet_same _ _ _
  · show lookupField
        (dictSet (dictSet p "room_name" dev.room_name) "location_name" dev.location_name)
        key = lookupField p key
    rw [lookupField_dictSet_other _ _ _ _ h2, lookupField_dictSet_other _ _ _ _ h1]

theorem claim_C10_witness :
    lookupField
        ((AmbiclimateDevice.request ⟨Json.str "Bedroom", Json.str "Home", Json.str "abc"⟩
          (fun _ => NetOutcome.clientError) "device/mode"
          [("room_name", Json.str "stale"), ("multiple", Json.bool false)] 3).2.2)
        "room_name" = some (Json.str "Bedroom") ∧
    lookupField
        ((AmbiclimateDevice.request ⟨Json.str "Bedroom", Json.str "Home", Json.str "abc"⟩
          (fun _ => NetOutcome.clientError) "device/mode"
          [("room_name", Json.str "stale"), ("multiple", Json.bool false)] 3).2.2)
        "location_name" = some (Json.str "Home") ∧
    lookupField
        ((AmbiclimateDevice.request ⟨Json.str "Bedroom", Json.str "Home", Json.str "abc"⟩
          (fun _ => NetOutcome.clientError) "device/mode"
          [("room_name", Json.str "stale"), ("multiple", Json.bool false)] 3).2.2)
        "multiple"
      = lookupField [("room_name", Json.str "stale"), ("multiple", Json.bool false)] "multiple" :=
  claim_C10 ⟨Json.str "Bedroom", Json.str "Home", Json.str "abc"⟩
    (fun _ => NetOutcome.clientError) "device/mode"
    [("room_name", Json.str "stale"), ("multiple", Json.bool false)] 3 "multiple"
    (by decide) (by decide)

/-- C5: `set_comfort_feedback` with a value outside the fixed feedback set
returns the null result having issued no network attempt; with a value
inside the set it issues at least one attempt, every attempt carries the
command `user/feedback` and parameters whose `value` entry is the given
value. -/
theorem claim_C5 (dev : AmbiclimateDevice) (oracle : Nat → NetOutcome) (value : Json) :
    (pyInStrList value valid_comfort_feedback = false →
      dev.set_comfort_feedback oracle value = (ReqResult.null, [])) ∧
    (pyInStrList value valid_comfort_feedback = true →
      1 ≤ (dev.set_comfort_feedback oracle value).2.length ∧
      (dev.set_comfort_feedback oracle value).2 =
        List.replicate (dev.set_comfort_feedback oracle value).2.length
          ⟨"user/feedback",
           dictSet (dictSet [("value", value)] "room_name" dev.room_name)
             "location_name" dev.location_name, true⟩ ∧
      lookupField
          (dictSet (dictSet [("value", value)] "room_name" dev.room_name)
            "location_name" dev.location_name) "value" = some value) := by
  constructor
  · intro h
    simp [AmbiclimateDevice.set_comfort_feedback, h]
  · intro h
    refine ⟨?_, ?_, ?_⟩
    · simpa [AmbiclimateDevice.set_comfort_feedback, h, AmbiclimateDevice.request,
        Ambiclimate.request] using
        requestGo_length_pos oracle "user/feedback"
          (dictSet (dictSet [("value", value)] "room_name" dev.room_name)
            "location_name" dev.location_name) (Int.toNat 3) 0 true
    · simpa [AmbiclimateDevice.set_comfort_feedback, h, AmbiclimateDevice.request,
        Ambiclimate.request] using
        requestGo_trace_get oracle "user/feedback"
          (dictSet (dictSet [("value", value)] "room_name" dev.room_name)
            "location_name" dev.location_name) (Int.toNat 3) 0
    · rw [lookupField_dictSet_other _ _ _ _ (by decide : "value" ≠ "location_name"),
        lookupField_dictSet_other _ _ _ _ (by decide : "value" ≠ "room_name")]
      simp [lookupField]

theorem claim_C5_witness :
    sampleDevice.set_comfort_feedback errOracle (Json.str "scorching")
        = (ReqResult.null, []) ∧
    (1 ≤ (sampleDevice.set_comfort_feedback errOracle (Json.str "comfortable")).2.length ∧
     (sampleDevice.set_comfort_feedback errOracle (Json.str "comfortable")).2 =
       List.replicate
         (sampleDevice.set_comfort_feedback errOracle (Json.str "comfortable")).2.length
         ⟨"user/feedback",
          dictSet (dictSet [("value", Json.str "comfortable")] "room_name" sampleDevice.room_name)
            "location_name" sampleDevice.location_name, true⟩ ∧
     lookupField
         (dictSet (dictSet [("value", Json.str "comfortable")] "room_name" sampleDevice.room_name)
           "location_name" sampleDevice.location_name) "value"
       = some (Json.str "comfortable")) :=
  ⟨(claim_C5 sampleDevice errOracle (Json.str "scorching")).1 rfl,
   (claim_C5 sampleDevice errOracle (Json.str "comfortable")).2 rfl⟩

/-- C2, as stated, is false: the body `{"status": null}` contains a `status`
field whose value is not `"ok"`, yet the call returns the full body rather
than `False`, because `result.get('status')` cannot distinguish a stored
`null` from an absent key. -/
theorem claim_C2_counterexample :
    lookupField [("status", Json.null)] "status" = some Json.null ∧
    (Ambiclimate.request (fun _ => NetOutcome.success [("status", Json.null)])
        "devices" [] 3 true).1 = ReqResult.body [("status", Json.null)] ∧
    ReqResult.isBoolean
        (Ambiclimate.request (fun _ => NetOutcome.success [("status", Json.null)])
          "devices" [] 3 true).1 = false :=
  ⟨rfl, rfl, rfl⟩

/-- C2 amended: on a successful first attempt, when the body's `status`
entry is absent or `null` the full parsed body is returned unchanged; when
it is present and non-null the call returns the boolean `status == 'ok'`
(true exactly for the string `"ok"`, false for every other value). -/
theorem claim_C2_amended (oracle : Nat → NetOutcome) (c : String) (p : Params)
    (retry : Int) (g : Bool) (body : Params)
    (h : oracle 0 = NetOutcome.success body) :
    ((dictGet body "status").isNull = true →
      (Ambiclimate.request oracle c p retry g).1 = ReqResult.body body) ∧
    ((dictGet body "status").isNull = false →
      (Ambiclimate.request oracle c p retry g).1
        = ReqResult.boolean (pyEqStr (dictGet body "status") "ok")) := by
  constructor <;> intro hs <;> cases hf : retry.toNat <;>
    simp [Ambiclimate.request, requestGo, h, hf, hs]

theorem claim_C2_witness :
    (Ambiclimate.request (fun _ => NetOutcome.success [("status", Json.str "ok")])
        "devices" [] 3 true).1 = ReqResult.boolean true ∧
    (Ambiclimate.request (fun _ => NetOutcome.success [("status", Json.str "error")])
        "devices" [] 3 true).1 = ReqResult.boolean false ∧
    (Ambiclimate.request (fun _ => NetOutcome.success [("value", Json.num 21)])
        "devices" [] 3 true).1 = ReqResult.body [("value", Json.num 21)] :=
  ⟨(claim_C2_amended (fun _ => NetOutcome.success [("status", Json.str "ok")])
      "devices" [] 3 true [("status", Json.str "ok")] rfl).2 rfl,
   (claim_C2_amended (fun _ => NetOutcome.success [("status", Json.str "error")])
      "devices" [] 3 true [("status", Json.str "error")] rfl).2 rfl,
   (claim_C2_amended (fun _ => NetOutcome.success [("value", Json.num 21)])
      "devices" [] 3 true [("value", Json.num 21)] rfl).1 rfl⟩

/-- C4, as stated, is false: when every attempt fails and the request
returns null, `find_devices` does not treat null as an empty list — the
call `res.get('data', [])` faults with an `AttributeError` instead of
returning `False`. -/
theorem claim_C4_counterexample :
    (Ambiclimate.request errOracle "devices" [] 3 true).1 = ReqResult.null ∧
    Ambiclimate.find_devices errOracle = Except.error PyError.attributeError :=
  ⟨rfl, rfl⟩

/-- C4 amended: when the response is a JSON object whose `data` field is a
list (or missing, which counts as the empty list), `find_devices` stores
that list and returns true exactly when it is non-empty — in particular,
an empty or missing `data` field gives false and a subsequent
`get_devices` on the stored list yields the empty sequence; but when the
prior request failed and returned null, `find_devices` does not treat null
as an empty list: the call `res.get('data', [])` faults with an
`AttributeError`. -/
theorem claim_C4_amended (oracle : Nat → NetOutcome) :
    ((Ambiclimate.request oracle "devices" [] 3 true).1 = ReqResult.null →
      Ambiclimate.find_devices oracle = Except.error PyError.attributeError) ∧
    (∀ (res : Params) (ds : List Json),
      (Ambiclimate.request oracle "devices" [] 3 true).1 = ReqResult.body res →
      dictGetD res "data" (Json.arr []) = Json.arr ds →
      Ambiclimate.find_devices oracle = Except.ok (!ds.isEmpty, Json.arr ds)) ∧
    Ambiclimate.get_devices (Json.arr []) = Except.ok [] := by
  refine ⟨?_, ?_, rfl⟩
  · intro h
    simp [Ambiclimate.find_devices, h]
  · intro res ds h hd
    cases hds : ds.isEmpty <;>
      simp_all [Ambiclimate.find_devices, h, hd, pyTruthy]

theorem claim_C4_witness :
    Ambiclimate.find_devices errOracle = Except.error PyError.attributeError ∧
    Ambiclimate.find_devices (fun _ => NetOutcome.success []) = Except.ok (false, Json.arr []) ∧
    Ambiclimate.find_devices (fun _ => NetOutcome.success
        [("data", Json.arr [Json.obj [("room_name", Json.str "Bedroom"),
          ("location_name", Json.str "Home"), ("device_id", Json.str "abc")]])])
      = Except.ok (true, Json.arr [Json.obj [("room_name", Json.str "Bedroom"),
          ("location_name", Json.str "Home"), ("device_id", Json.str "abc")]]) ∧
    Ambiclimate.get_devices (Json.arr []) = Except.ok [] :=
  ⟨(claim_C4_amended errOracle).1 rfl,
   (claim_C4_amended (fun _ => NetOutcome.success [])).2.1 [] [] rfl rfl,
   (claim_C4_amended (fun _ => NetOutcome.success
        [("data", Json.arr [Json.obj [("room_name", Json.str "Bedroom"),
          ("location_name", Json.str "Home"), ("device_id", Json.str "abc")]])])).2.1
      [("data", Json.arr [Json.obj [("room_name", Json.str "Bedroom"),
        ("location_name", Json.str "Home"), ("device_id", Json.str "abc")]])]
      [Json.obj [("room_name", Json.str "Bedroom"),
        ("location_name", Json.str "Home"), ("device_id", Json.str "abc")]] rfl rfl,
   (claim_C4_amended errOracle).2.2⟩

/-- C7: `get_devices` is a pure function of the cached device list (no
network oracle appears in it); on the initial cache it returns the empty
sequence, and on a cached list of records it returns one handle per
record, in order, whose room, location and device id come from that
record's `room_name`, `location_name` and `device_id` fields. -/
theorem claim_C7 :
    Ambiclimate.get_devices initial_devices_info = Except.ok [] ∧
    ∀ records : List Params,
      Ambiclimate.get_devices (Json.arr (records.map Json.obj)) =
        Except.ok (records.map fun fields =>
          ⟨dictGet fields "room_name", dictGet fields "location_name",
            dictGet fields "device_id"⟩) := by
  refine ⟨rfl, ?_⟩
  intro records
  induction records with
  | nil => rfl
  | cons hd tl ih =>
      simp only [Ambiclimate.get_devices] at ih ⊢
      simp [devicesFrom, ih, Except.map, List.map_cons]

/-- C8: the sensor getters extract the `value` field (resp. `mode` for the
mode getter) from the result mapping; when the underlying request failed
and returned null, the extraction itself faults with an `AttributeError`
instead of propagating null. -/
theorem claim_C8 (dev : AmbiclimateDevice) (o1 o2 : Nat → NetOutcome) (res : Params)
    (ht1 : (dev.request o1 "device/sensor/temperature" [] 3).1 = ReqResult.null)
    (hh1 : (dev.request o1 "device/sensor/humidity" [] 3).1 = ReqResult.null)
    (hm1 : (dev.request o1 "device/mode" [] 3).1 = ReqResult.null)
    (ht2 : (dev.request o2 "device/sensor/temperature" [] 3).1 = ReqResult.body res)
    (hh2 : (dev.request o2 "device/sensor/humidity" [] 3).1 = ReqResult.body res)
    (hm2 : (dev.request o2 "device/mode" [] 3).1 = ReqResult.body res) :
    dev.get_sensor_temperature o1 = Except.error PyError.attributeError ∧
    dev.get_sensor_humidity o1 = Except.error PyError.attributeError ∧
    dev.get_sensor_mode o1 = Except.error PyError.attributeError ∧
    dev.get_sensor_temperature o2 = Except.ok (dictGet res "value") ∧
    dev.get_sensor_humidity o2 = Except.ok (dictGet res "value") ∧
    dev.get_sensor_mode o2 = Except.ok (dictGet res "mode") := by
  simp [AmbiclimateDevice.get_sensor_temperature, AmbiclimateDevice.get_sensor_humidity,
    AmbiclimateDevice.get_sensor_mode, ht1, hh1, hm1, ht2, hh2, hm2]

theorem claim_C8_witness :
    sampleDevice.get_sensor_temperature errOracle = Except.error PyError.attributeError ∧
    sampleDevice.get_sensor_humidity errOracle = Except.error PyError.attributeError ∧
    sampleDevice.get_sensor_mode errOracle = Except.error PyError.attributeError ∧
    sampleDevice.get_sensor_temperature okOracle = Except.ok (Json.num 21) ∧
    sampleDevice.get_sensor_humidity okOracle = Except.ok (Json.num 21) ∧
    sampleDevice.get_sensor_mode okOracle = Except.ok (Json.str "Comfort") :=
  claim_C8 sampleDevice errOracle okOracle
    [("value", Json.num 21), ("mode", Json.str "Comfort")] rfl rfl rfl rfl rfl rfl
